import Mathlib

/-!
Shallow embedding of the wellness-navigator backend (src/backend/main.py).

The Python module defines a keyword intent classifier, a safety detector,
a field-completeness checker, a clarification-prompt table, a recommendation
table, a three-step workflow (start node, intent classifier node, one of
three identical wellness nodes chosen by a router), and two HTTP handlers
(coach and sync_milestone).  Every definition below is translated from that
source file; Python optional/absent dictionary values become Option, and
Python truthiness on optional strings becomes the predicate falsy below
(None and the empty string are falsy, every other string truthy).
Lower-casing is the ASCII lower-casing the code relies on for its ASCII
keyword sets.  External effects (the best-effort supabase insert, the real
webhook POST, the real-time clock) do not alter the coaching state; the
sync handler takes the generated timestamp and the remote HTTP status as
explicit parameters.
-/

namespace WellnessNavigator

/-- Python truthiness test for an optional string: `not value` is true
exactly when the value is absent (None) or the empty string. -/
def falsy : Option String → Bool
  | none => true
  | some s => s == ""

/-- ASCII lower-casing of a string, modelling Python str.lower on the
ASCII text the keyword sets consist of. -/
def lower (s : String) : String := String.mk (s.data.map Char.toLower)

/-- Contiguous-substring test over character lists: true when needle
occurs inside haystack (the empty needle always occurs). -/
def listContains (needle : List Char) : List Char → Bool
  | [] => needle.isEmpty
  | c :: rest => List.isPrefixOf needle (c :: rest) || listContains needle rest

/-- Python membership test: needle in haystack for strings. -/
def strContains (haystack needle : String) : Bool :=
  listContains needle.data haystack.data

/-- main.py line 68. -/
def SAFETY_KEYWORDS : List String :=
  ["chest pain", "shortness of breath", "suicidal", "faint", "fainted"]

/-- main.py line 69. -/
def FITNESS_KEYWORDS : List String :=
  ["workout", "steps", "muscle", "run", "cardio", "strength"]

/-- main.py line 70. -/
def NUTRITION_KEYWORDS : List String :=
  ["calories", "meal", "water", "protein", "fiber", "hydration"]

/-- main.py line 71. -/
def RESILIENCE_KEYWORDS : List String :=
  ["anxiety", "sleep", "meditation", "stress", "burnout"]

/-- main.py classify_intent (lines 94-102). -/
def classify_intent (message : String) : String :=
  let lowered := lower message
  if FITNESS_KEYWORDS.any (fun k => strContains lowered k) then "fitness"
  else if NUTRITION_KEYWORDS.any (fun k => strContains lowered k) then "nutrition"
  else if RESILIENCE_KEYWORDS.any (fun k => strContains lowered k) then "resilience"
  else "fitness"

/-- The fixed warning string returned by detect_safety (main.py line 109). -/
def SAFETY_WARNING : String :=
  "Possible distress detected. Please contact emergency services or a licensed clinician immediately."

/-- The for-loop body of detect_safety: scan the keyword list in order,
returning the fixed warning on the first substring match. -/
def detect_safety_loop (lowered : String) : List String → Option String
  | [] => none
  | w :: ws =>
    if strContains lowered w then some SAFETY_WARNING else detect_safety_loop lowered ws

/-- main.py detect_safety (lines 105-110). -/
def detect_safety (message : String) : Option String :=
  detect_safety_loop (lower message) SAFETY_KEYWORDS

/-- main.py CoachState (lines 54-65): a TypedDict with total=False, so every
key may be absent; absent keys and keys holding Python None are both modelled
as none, since the code only reads them through dict.get, which returns None
for both (the one get with a non-None default, on focus_area in
wellness_node, is only reached after the classifier has made focus_area a
non-empty string). -/
structure CoachState where
  user_name : Option String := none
  message : Option String := none
  goal : Option String := none
  activity_level : Option String := none
  primary_metric : Option String := none
  focus_area : Option String := none
  next_question : Option String := none
  missing_field : Option String := none
  ready_to_sync : Option Bool := none
  recommended_actions : Option (List String) := none
  safety_flag : Option String := none
deriving DecidableEq, Repr

/-- main.py missing_field (lines 113-117): the for-loop over the tuple
(goal, activity_level, primary_metric), unrolled; `not state.get(field)`
is the falsy test. -/
def missing_field (state : CoachState) : Option String :=
  if falsy state.goal then some ("goal")
  else if falsy state.activity_level then some ("activity_level")
  else if falsy state.primary_metric then some ("primary_metric")
  else none

/-- main.py clarification_prompt (lines 120-126): dict lookup with a
generic default. -/
def clarification_prompt (field : String) : String :=
  if field == "goal" then
    "What's your primary wellness goal right now?"
  else if field == "activity_level" then
    "How active have you been this week? (e.g., steps per day or minutes of movement)"
  else if field == "primary_metric" then
    "What metric should we track for this goal? (e.g., steps, calories, sleep hours)"
  else
    "Could you share more detail?"

/-- main.py recommendations_for_focus (lines 129-146).  Note the final
return - the branch taken for every focus other than fitness and
nutrition - is the resilience list. -/
def recommendations_for_focus (focus : String) : List String :=
  if focus == "fitness" then
    ["Plan 3-4 moderate sessions this week.",
     "Keep one rest or mobility day.",
     "Log steps daily to spot trends."]
  else if focus == "nutrition" then
    ["Aim for protein in each meal.",
     "Hydrate steadily across the day.",
     "Log meals to catch gaps in fiber."]
  else
    ["Schedule a consistent sleep window.",
     "Add a 5-minute breathing break.",
     "Limit screens 60 minutes before bed."]

/-- main.py start_node (lines 169-172). -/
def start_node (state : CoachState) : CoachState :=
  { state with
      safety_flag := detect_safety (state.message.getD "")
      ready_to_sync := some false }

/-- main.py intent_classifier_node (lines 175-178): `if not
state.get("focus_area")` is the falsy test. -/
def intent_classifier_node (state : CoachState) : CoachState :=
  if falsy state.focus_area then
    { state with focus_area := some (classify_intent (state.message.getD "")) }
  else state

/-- main.py wellness_node (lines 181-194).  The state.get with default
"fitness" on focus_area maps an absent key to "fitness"; log_to_supabase
is a best-effort external insert that never alters the state, so it is
omitted.  missing_field only returns none or a non-empty field name, so
Python truthiness on it coincides with the Option match. -/
def wellness_node (state : CoachState) : CoachState :=
  let missing := missing_field state
  let state1 : CoachState :=
    { state with
        missing_field := missing
        recommended_actions :=
          some (recommendations_for_focus (state.focus_area.getD ("fitness"))) }
  match missing with
  | some f =>
    { state1 with
        next_question := some (clarification_prompt f)
        ready_to_sync := some false }
  | none =>
    { state1 with
        next_question := none
        ready_to_sync := some true }

/-- main.py router (lines 197-203): `state.get("focus_area") or "fitness"`
replaces a falsy focus with "fitness". -/
def router (state : CoachState) : String :=
  let focus := if falsy state.focus_area then "fitness" else state.focus_area.getD ""
  if focus == "nutrition" then "nutrition_node"
  else if focus == "resilience" then "resilience_node"
  else "fitness_node"

/-- The compiled workflow's invoke (main.py lines 219-238 and 259):
START leads to initial_node (start_node), then intent_classifier_node,
then the router picks among fitness_node, nutrition_node and
resilience_node, each of which is wellness_node, and each leads to END. -/
def coach_executor_invoke (state : CoachState) : CoachState :=
  let s1 := start_node state
  let s2 := intent_classifier_node s1
  let target := router s2
  if target == "nutrition_node" then wellness_node s2
  else if target == "resilience_node" then wellness_node s2
  else wellness_node s2

/-- main.py CoachRequest (lines 28-34): user_name and message required,
the rest optional with default None. -/
structure CoachRequest where
  user_name : String
  message : String
  goal : Option String := none
  activity_level : Option String := none
  primary_metric : Option String := none
  focus_area : Option String := none
deriving DecidableEq, Repr

/-- main.py CoachResponse (lines 37-43). -/
structure CoachResponse where
  focus_area : String
  ready_to_sync : Bool
  missing_field : Option String
  next_question : Option String
  recommended_actions : List String
  safety_flag : Option String
deriving DecidableEq, Repr

/-- The fixed two-item emergency-contact list of the safety branch of the
coach handler (main.py lines 267-270). -/
def EMERGENCY_ACTIONS : List String :=
  ["If you are in immediate danger, contact local emergency services.",
   "Reach out to a licensed clinician for professional support."]

/-- The initial CoachState the coach handler builds from the request
(main.py lines 250-257). -/
def coachInit (request : CoachRequest) : CoachState :=
  { user_name := some request.user_name
    message := some request.message
    goal := request.goal
    activity_level := request.activity_level
    primary_metric := request.primary_metric
    focus_area := request.focus_area }

/-- main.py coach handler (lines 249-281): invokes the workflow, then
branches on Python truthiness of the final safety_flag (detect_safety
never produces the empty string, so truthiness is non-falsiness); the
safety branch overrides ready_to_sync, next_question and
recommended_actions while keeping the workflow's focus_area and
missing_field. -/
def coach (request : CoachRequest) : CoachResponse :=
  let result := coach_executor_invoke (coachInit request)
  if falsy result.safety_flag then
    { focus_area := result.focus_area.getD ("fitness")
      ready_to_sync := result.ready_to_sync.getD false
      missing_field := result.missing_field
      next_question := result.next_question
      recommended_actions := result.recommended_actions.getD []
      safety_flag := none }
  else
    { focus_area := result.focus_area.getD ("fitness")
      ready_to_sync := false
      missing_field := result.missing_field
      next_question := none
      recommended_actions := EMERGENCY_ACTIONS
      safety_flag := result.safety_flag }

/-- main.py SyncRequest (lines 46-51). -/
structure SyncRequest where
  user_name : String
  focus_area : String
  health_metric : String
  primary_goal : String
  timestamp : Option String := none
deriving DecidableEq, Repr

/-- Outcome of the sync_milestone handler: the skipped acknowledgment body,
a plain success (the handler falls off the end, returning None with
status 200), or a raised HTTPException with a status code and detail. -/
inductive SyncResult where
  | skipped (timestamp : String)
  | delivered
  | httpError (status : Nat) (detail : String)
deriving DecidableEq, Repr

/-- main.py sync_milestone (lines 285-297).  The real-time clock and the
network are external: now stands for datetime.now(timezone.utc).isoformat()
and remoteStatus for the status code of the remote webhook response; the
configured WEBHOOK_URL (env var, default empty string) is passed in, and
its Python truthiness test is the emptiness test.  payload.timestamp or now
keeps a truthy (non-empty) caller timestamp and otherwise generates one. -/
def sync_milestone (webhookUrl : String) (now : String) (remoteStatus : Nat)
    (payload : SyncRequest) : SyncResult :=
  let iso_timestamp := if falsy payload.timestamp then now else payload.timestamp.getD ""
  if webhookUrl == "" then SyncResult.skipped iso_timestamp
  else if remoteStatus ≥ 400 then SyncResult.httpError 502 ("Webhook delivery failed.")
  else SyncResult.delivered


/-- Derived: the focus_area the classifier step leaves in the state. -/
def resolvedFocus (s : CoachState) : Option String :=
  if falsy s.focus_area then some (classify_intent (s.message.getD "")) else s.focus_area

theorem invoke_eq (s : CoachState) :
    coach_executor_invoke s = wellness_node (intent_classifier_node (start_node s)) := by
  simp only [coach_executor_invoke]
  split_ifs <;> rfl

theorem classified_state_eq (s : CoachState) :
    intent_classifier_node (start_node s) =
      { s with
        safety_flag := detect_safety (s.message.getD "")
        ready_to_sync := some false
        focus_area := resolvedFocus s } := by
  unfold intent_classifier_node start_node resolvedFocus
  by_cases h : falsy s.focus_area <;> simp [h]

theorem wellness_node_eq (t : CoachState) :
    wellness_node t =
      { t with
        missing_field := missing_field t
        recommended_actions :=
          some (recommendations_for_focus (t.focus_area.getD ("fitness")))
        next_question := (missing_field t).map clarification_prompt
        ready_to_sync := some (missing_field t).isNone } := by
  simp only [wellness_node]
  cases hmf : missing_field t <;> simp [hmf]

theorem invoke_closed_form (s : CoachState) :
    coach_executor_invoke s =
      { s with
        safety_flag := detect_safety (s.message.getD "")
        focus_area := resolvedFocus s
        missing_field := missing_field s
        recommended_actions :=
          some (recommendations_for_focus ((resolvedFocus s).getD ("fitness")))
        next_question := (missing_field s).map clarification_prompt
        ready_to_sync := some (missing_field s).isNone } := by
  rw [invoke_eq, wellness_node_eq, classified_state_eq]
  rfl

theorem detect_safety_loop_eq (lowered : String) (ws : List String) :
    detect_safety_loop lowered ws =
      if ws.any (fun k => strContains lowered k) then some SAFETY_WARNING else none := by
  induction ws with
  | nil => simp [detect_safety_loop]
  | cons w ws ih =>
    by_cases h : strContains lowered w <;> simp [detect_safety_loop, h, ih]

theorem detect_safety_eq (message : String) :
    detect_safety message =
      if SAFETY_KEYWORDS.any (fun k => strContains (lower message) k)
      then some SAFETY_WARNING else none :=
  detect_safety_loop_eq (lower message) SAFETY_KEYWORDS

theorem falsy_some_safety_warning : falsy (some SAFETY_WARNING) = false := by decide

theorem detect_safety_falsy_iff (message : String) :
    falsy (detect_safety message) = true ↔ detect_safety message = none := by
  rw [detect_safety_eq]
  by_cases h : SAFETY_KEYWORDS.any (fun k => strContains (lower message) k) <;>
    simp [h, falsy]
  decide

theorem coach_closed_form (req : CoachRequest) :
    coach req =
      if falsy (detect_safety req.message) then
        { focus_area := (resolvedFocus (coachInit req)).getD ("fitness")
          ready_to_sync := (missing_field (coachInit req)).isNone
          missing_field := missing_field (coachInit req)
          next_question := (missing_field (coachInit req)).map clarification_prompt
          recommended_actions :=
            recommendations_for_focus ((resolvedFocus (coachInit req)).getD ("fitness"))
          safety_flag := none }
      else
        { focus_area := (resolvedFocus (coachInit req)).getD ("fitness")
          ready_to_sync := false
          missing_field := missing_field (coachInit req)
          next_question := none
          recommended_actions := EMERGENCY_ACTIONS
          safety_flag := detect_safety req.message } := by
  by_cases h : falsy (detect_safety req.message) <;>
    simp [coach, invoke_closed_form, coachInit, h]


/-- C1: for every coach request whose message contains a configured distress
phrase (case-insensitively, at any position), the response has a non-null
safety_flag, ready_to_sync false, no next question, and the fixed two-item
emergency-contact action list, whatever the other request fields are. -/
theorem coach_safety_override (req : CoachRequest)
    (h : ∃ k ∈ SAFETY_KEYWORDS, strContains (lower req.message) k = true) :
    (coach req).safety_flag ≠ none ∧
    (coach req).ready_to_sync = false ∧
    (coach req).next_question = none ∧
    (coach req).recommended_actions = EMERGENCY_ACTIONS := by
  have hany : SAFETY_KEYWORDS.any (fun k => strContains (lower req.message) k) = true :=
    List.any_eq_true.mpr (by simpa using h)
  have hd : detect_safety req.message = some SAFETY_WARNING := by
    rw [detect_safety_eq, if_pos hany]
  rw [coach_closed_form, hd]
  simp [falsy_some_safety_warning]

/-- C1 witness at the message "I feel chest pain". -/
theorem coach_safety_override_witness :
    (∃ k ∈ SAFETY_KEYWORDS, strContains (lower ("I feel chest pain")) k = true) ∧
    ((coach { user_name := "u", message := "I feel chest pain" }).safety_flag ≠ none ∧
     (coach { user_name := "u", message := "I feel chest pain" }).ready_to_sync = false ∧
     (coach { user_name := "u", message := "I feel chest pain" }).next_question = none ∧
     (coach { user_name := "u", message := "I feel chest pain" }).recommended_actions = EMERGENCY_ACTIONS) :=
  ⟨⟨"chest pain", by decide, by decide⟩,
   coach_safety_override { user_name := "u", message := "I feel chest pain" }
     ⟨"chest pain", by decide, by decide⟩⟩

/-- C2: ready_to_sync is true in the coach response exactly when goal,
activity_level and primary_metric are all present and non-empty in the final
workflow state and the message raised no safety flag. -/
theorem coach_ready_to_sync_iff (req : CoachRequest) :
    (coach req).ready_to_sync = true ↔
      (falsy (coach_executor_invoke (coachInit req)).goal = false ∧
       falsy (coach_executor_invoke (coachInit req)).activity_level = false ∧
       falsy (coach_executor_invoke (coachInit req)).primary_metric = false ∧
       detect_safety req.message = none) := by
  have hg : (coach_executor_invoke (coachInit req)).goal = req.goal := by
    rw [invoke_closed_form]; rfl
  have ha : (coach_executor_invoke (coachInit req)).activity_level = req.activity_level := by
    rw [invoke_closed_form]; rfl
  have hm : (coach_executor_invoke (coachInit req)).primary_metric = req.primary_metric := by
    rw [invoke_closed_form]; rfl
  rw [coach_closed_form, hg, ha, hm]
  by_cases h : falsy (detect_safety req.message)
  · have hnone : detect_safety req.message = none := (detect_safety_falsy_iff req.message).mp h
    rw [if_pos h]
    simp only [hnone]
    by_cases h1 : falsy req.goal <;> by_cases h2 : falsy req.activity_level <;>
      by_cases h3 : falsy req.primary_metric <;>
      simp_all [missing_field, coachInit]
  · have hnone : ¬ detect_safety req.message = none := fun hn => h (by simp [hn, falsy])
    rw [if_neg h]
    simp [hnone]

/-- C2 witness: a fully specified non-distress request syncs. -/
theorem coach_ready_to_sync_iff_witness :
    (coach { user_name := "u", message := "I ran 5k and tracked my steps",
             goal := some ("lose weight"), activity_level := some ("moderate"),
             primary_metric := some ("steps") }).ready_to_sync = true :=
  (coach_ready_to_sync_iff
    { user_name := "u", message := "I ran 5k and tracked my steps",
      goal := some ("lose weight"), activity_level := some ("moderate"),
      primary_metric := some ("steps") }).mpr ⟨by decide, by decide, by decide, by decide⟩

/-- C3: the classifier lower-cases the message and returns fitness on any
fitness-keyword substring match, else nutrition on any nutrition-keyword
match, else resilience on any resilience-keyword match, else the default
fitness; in particular the fitness set has priority over the others. -/
theorem classify_intent_spec (message : String) :
    (FITNESS_KEYWORDS.any (fun k => strContains (lower message) k) = true →
       classify_intent message = "fitness") ∧
    (FITNESS_KEYWORDS.any (fun k => strContains (lower message) k) = false →
     NUTRITION_KEYWORDS.any (fun k => strContains (lower message) k) = true →
       classify_intent message = "nutrition") ∧
    (FITNESS_KEYWORDS.any (fun k => strContains (lower message) k) = false →
     NUTRITION_KEYWORDS.any (fun k => strContains (lower message) k) = false →
     RESILIENCE_KEYWORDS.any (fun k => strContains (lower message) k) = true →
       classify_intent message = "resilience") ∧
    (FITNESS_KEYWORDS.any (fun k => strContains (lower message) k) = false →
     NUTRITION_KEYWORDS.any (fun k => strContains (lower message) k) = false →
     RESILIENCE_KEYWORDS.any (fun k => strContains (lower message) k) = false →
       classify_intent message = "fitness") :=
  ⟨fun h1 => by simp [classify_intent, h1],
   fun h1 h2 => by simp [classify_intent, h1, h2],
   fun h1 h2 h3 => by simp [classify_intent, h1, h2, h3],
   fun h1 h2 h3 => by simp [classify_intent, h1, h2, h3]⟩

/-- C3 witness: a message with both a fitness and a nutrition keyword is
classified fitness. -/
theorem classify_intent_spec_witness :
    classify_intent ("planning a meal after my workout") = "fitness" :=
  (classify_intent_spec ("planning a meal after my workout")).1 (by decide)


theorem resolvedFocus_coachInit (req : CoachRequest) :
    resolvedFocus (coachInit req) =
      if falsy req.focus_area then some (classify_intent req.message) else req.focus_area := rfl

theorem resolvedFocus_coachInit_isSome (req : CoachRequest) :
    ∃ v, resolvedFocus (coachInit req) = some v := by
  rw [resolvedFocus_coachInit]
  by_cases h : falsy req.focus_area
  · exact ⟨classify_intent req.message, by rw [if_pos h]⟩
  · cases hf : req.focus_area with
    | none => exact absurd (by simp [falsy, hf]) h
    | some v => exact ⟨v, by rw [hf] at h; simp [h]⟩

theorem coach_focus_area_eq (req : CoachRequest) :
    (coach req).focus_area = (resolvedFocus (coachInit req)).getD ("fitness") := by
  rw [coach_closed_form]
  by_cases h : falsy (detect_safety req.message) <;> simp [h]

theorem classify_intent_mem (message : String) :
    classify_intent message ∈ (["fitness", "nutrition", "resilience"] : List String) := by
  simp only [classify_intent]
  split_ifs <;> simp

/-- C4 counterexample: a caller-supplied unknown focus_area "yoga" is kept in
the emitted response instead of being defaulted to one of the three tags. -/
theorem coach_focus_area_counterexample :
    (coach { user_name := "u", message := "hello", focus_area := some ("yoga") }).focus_area = "yoga" ∧
    (coach { user_name := "u", message := "hello", focus_area := some ("yoga") }).focus_area ∉
      (["fitness", "nutrition", "resilience"] : List String) := by decide

/-- C4 amended: the emitted focus_area is exactly the final state's focus_area;
it is one of the three tags whenever the caller left focus_area unset or empty,
and otherwise it is the caller's value unchanged, even when that value is not
one of the three tags (only the routing defaults unknown tags to the fitness
node). -/
theorem coach_focus_area_amended (req : CoachRequest) :
    ((coach_executor_invoke (coachInit req)).focus_area = some (coach req).focus_area) ∧
    (falsy req.focus_area = true →
       (coach req).focus_area ∈ (["fitness", "nutrition", "resilience"] : List String)) ∧
    (∀ v, req.focus_area = some v → v ≠ "" → (coach req).focus_area = v) := by
  have hfo : (coach_executor_invoke (coachInit req)).focus_area = resolvedFocus (coachInit req) := by
    rw [invoke_closed_form]
  refine ⟨?_, ?_, ?_⟩
  · rw [hfo, coach_focus_area_eq]
    obtain ⟨v, hv⟩ := resolvedFocus_coachInit_isSome req
    rw [hv]
    rfl
  · intro h
    rw [coach_focus_area_eq, resolvedFocus_coachInit, if_pos h]
    simpa using classify_intent_mem req.message
  · intro v hv hne
    have hf : falsy req.focus_area = false := by rw [hv]; simp [falsy, hne]
    rw [coach_focus_area_eq, resolvedFocus_coachInit, if_neg (by simp [hf]), hv]
    rfl

/-- C4 amended witness: with focus_area unset the emitted focus_area is one of
the three tags. -/
theorem coach_focus_area_amended_witness :
    (coach { user_name := "u", message := "hello" }).focus_area ∈
      (["fitness", "nutrition", "resilience"] : List String) :=
  (coach_focus_area_amended { user_name := "u", message := "hello" }).2.1 (by decide)

/-- C5 counterexample: an unrecognized tag falls back to the resilience list,
which differs from the fitness list. -/
theorem recommendations_fallback_counterexample :
    recommendations_for_focus ("yoga") = recommendations_for_focus ("resilience") ∧
    recommendations_for_focus ("yoga") ≠ recommendations_for_focus ("fitness") := by decide

/-- C5 amended: the table maps fitness and nutrition to their fixed ordered
lists, and every other tag, resilience included, to the fixed resilience
list; in particular the fallback for unrecognized tags is the resilience
list, not the fitness list. -/
theorem recommendations_for_focus_amended (tag : String) :
    recommendations_for_focus ("fitness") =
      ["Plan 3-4 moderate sessions this week.",
       "Keep one rest or mobility day.",
       "Log steps daily to spot trends."] ∧
    recommendations_for_focus ("nutrition") =
      ["Aim for protein in each meal.",
       "Hydrate steadily across the day.",
       "Log meals to catch gaps in fiber."] ∧
    recommendations_for_focus ("resilience") =
      ["Schedule a consistent sleep window.",
       "Add a 5-minute breathing break.",
       "Limit screens 60 minutes before bed."] ∧
    (tag ≠ "fitness" → tag ≠ "nutrition" →
       recommendations_for_focus tag =
         ["Schedule a consistent sleep window.",
          "Add a 5-minute breathing break.",
          "Limit screens 60 minutes before bed."]) := by
  refine ⟨by decide, by decide, by decide, fun h1 h2 => ?_⟩
  unfold recommendations_for_focus
  rw [if_neg (by simp [h1]), if_neg (by simp [h2])]

/-- C5 amended witness at the unrecognized tag "meditation". -/
theorem recommendations_for_focus_amended_witness :
    recommendations_for_focus ("meditation") =
      ["Schedule a consistent sleep window.",
       "Add a 5-minute breathing break.",
       "Limit screens 60 minutes before bed."] :=
  (recommendations_for_focus_amended ("meditation")).2.2.2 (by decide) (by decide)

/-- C6: the completeness checker reports exactly the first field among goal,
activity_level, primary_metric that is absent or empty, and none exactly when
all three are present and non-empty; a lower-priority field is never reported
while a higher-priority one is missing. -/
theorem missing_field_spec (state : CoachState) :
    (missing_field state = some ("goal") ↔ falsy state.goal = true) ∧
    (missing_field state = some ("activity_level") ↔
       (falsy state.goal = false ∧ falsy state.activity_level = true)) ∧
    (missing_field state = some ("primary_metric") ↔
       (falsy state.goal = false ∧ falsy state.activity_level = false ∧
        falsy state.primary_metric = true)) ∧
    (missing_field state = none ↔
       (falsy state.goal = false ∧ falsy state.activity_level = false ∧
        falsy state.primary_metric = false)) := by
  unfold missing_field
  by_cases h1 : falsy state.goal <;> by_cases h2 : falsy state.activity_level <;>
    by_cases h3 : falsy state.primary_metric <;> simp_all

/-- C6 witness: with every field absent the first field, goal, is reported. -/
theorem missing_field_spec_witness :
    missing_field ({} : CoachState) = some ("goal") :=
  ((missing_field_spec ({} : CoachState)).1).mpr (by decide)

/-- C7 counterexample: a caller-supplied empty-string focus_area is overridden
by the classifier step, so the value leaving it differs from the supplied
value. -/
theorem classifier_override_empty_focus :
    (intent_classifier_node (start_node (coachInit
        { user_name := "u", message := "morning workout", focus_area := some ("") }))).focus_area ≠ some ("") ∧
    (intent_classifier_node (start_node (coachInit
        { user_name := "u", message := "morning workout", focus_area := some ("") }))).focus_area = some ("fitness") := by decide

/-- C7 amended: for every coach request whose caller-supplied focus_area is
non-empty, the classifier node does not override it: the focus_area leaving
the classify step equals the supplied value. -/
theorem classifier_preserves_nonempty_focus (req : CoachRequest) (v : String)
    (h1 : req.focus_area = some v) (h2 : v ≠ "") :
    (intent_classifier_node (start_node (coachInit req))).focus_area = some v := by
  have hf : falsy req.focus_area = false := by rw [h1]; simp [falsy, h2]
  rw [classified_state_eq]
  show resolvedFocus (coachInit req) = some v
  rw [resolvedFocus_coachInit, if_neg (by simp [hf]), h1]

/-- C7 amended witness: a supplied focus_area "resilience" survives the
classify step. -/
theorem classifier_preserves_nonempty_focus_witness :
    (intent_classifier_node (start_node (coachInit
      { user_name := "u", message := "morning workout", focus_area := some ("resilience") }))).focus_area =
      some ("resilience") :=
  classifier_preserves_nonempty_focus
    { user_name := "u", message := "morning workout", focus_area := some ("resilience") }
    ("resilience") rfl (by decide)


/-- C8: with no webhook URL configured, sync_milestone answers with the
skipped acknowledgment carrying the caller-provided timestamp or the freshly
generated one, and no delivery is attempted; with a URL configured it raises
the 502 delivery-failure error exactly when the remote answers with a client
or server error status (>= 400). -/
theorem sync_milestone_spec (webhookUrl now : String) (remoteStatus : Nat)
    (payload : SyncRequest) :
    (webhookUrl = "" →
       ∃ ts, sync_milestone webhookUrl now remoteStatus payload = SyncResult.skipped ts ∧
         (payload.timestamp = some ts ∨ ts = now)) ∧
    (webhookUrl ≠ "" →
       (sync_milestone webhookUrl now remoteStatus payload =
          SyncResult.httpError 502 ("Webhook delivery failed.") ↔ remoteStatus ≥ 400)) := by
  constructor
  · intro h
    subst h
    by_cases ht : falsy payload.timestamp
    · exact ⟨now, by simp [sync_milestone, ht], Or.inr rfl⟩
    · have ht' : falsy payload.timestamp = false := by simpa using ht
      obtain ⟨t, hp⟩ : ∃ t, payload.timestamp = some t := by
        cases hq : payload.timestamp with
        | none => rw [hq] at ht'; simp [falsy] at ht'
        | some t => exact ⟨t, rfl⟩
      have ht2 : falsy (some t) = false := by rw [← hp]; exact ht'
      exact ⟨t, by simp [sync_milestone, hp, ht2], Or.inl hp⟩
  · intro h
    unfold sync_milestone
    rw [if_neg (by simp [h])]
    by_cases hs : remoteStatus ≥ 400
    · rw [if_pos hs]; simp [hs]
    · rw [if_neg hs]; simp [hs]

/-- C8 witness: skipped acknowledgment without a URL, 502 error on a remote
500 with a URL. -/
theorem sync_milestone_spec_witness :
    (∃ ts, sync_milestone ("") ("2025-01-01T00:00:00+00:00") 200
        { user_name := "u", focus_area := "fitness", health_metric := "steps",
          primary_goal := "get fit" } = SyncResult.skipped ts ∧
        (({ user_name := "u", focus_area := "fitness", health_metric := "steps",
            primary_goal := "get fit" } : SyncRequest).timestamp = some ts ∨
         ts = "2025-01-01T00:00:00+00:00")) ∧
    (sync_milestone ("https://example.org/hook") ("2025-01-01T00:00:00+00:00") 500
        { user_name := "u", focus_area := "fitness", health_metric := "steps",
          primary_goal := "get fit" } =
      SyncResult.httpError 502 ("Webhook delivery failed.")) :=
  ⟨(sync_milestone_spec ("") ("2025-01-01T00:00:00+00:00") 200
      { user_name := "u", focus_area := "fitness", health_metric := "steps",
        primary_goal := "get fit" }).1 rfl,
   ((sync_milestone_spec ("https://example.org/hook") ("2025-01-01T00:00:00+00:00") 500
      { user_name := "u", focus_area := "fitness", health_metric := "steps",
        primary_goal := "get fit" }).2 (by decide)).mpr (by decide)⟩

/-- C9: in the safety-override branch of coach, the response's missing_field,
focus_area and safety_flag are exactly the workflow's final-state values;
only ready_to_sync, next_question and recommended_actions are replaced, so a
distress response can simultaneously report a missing field. -/
theorem coach_safety_branch_frame (req : CoachRequest)
    (h : detect_safety req.message ≠ none) :
    (coach req).missing_field = (coach_executor_invoke (coachInit req)).missing_field ∧
    some (coach req).focus_area = (coach_executor_invoke (coachInit req)).focus_area ∧
    (coach req).safety_flag = (coach_executor_invoke (coachInit req)).safety_flag := by
  have hf : falsy (detect_safety req.message) = false := by
    cases hd : detect_safety req.message with
    | none => exact absurd hd h
    | some w =>
      have he := detect_safety_eq req.message
      rw [hd] at he
      by_cases hc : SAFETY_KEYWORDS.any (fun k => strContains (lower req.message) k)
      · rw [if_pos hc] at he
        injection he with hw
        rw [hw]
        exact falsy_some_safety_warning
      · rw [if_neg hc] at he
        exact absurd he (by simp)
  have h1 : (coach_executor_invoke (coachInit req)).missing_field =
      missing_field (coachInit req) := by
    rw [invoke_closed_form]
  have h2 : (coach_executor_invoke (coachInit req)).focus_area =
      resolvedFocus (coachInit req) := by
    rw [invoke_closed_form]
  have h3 : (coach_executor_invoke (coachInit req)).safety_flag =
      detect_safety req.message := by
    rw [invoke_closed_form]; rfl
  rw [coach_closed_form, if_neg (by simp [hf]), h1, h2, h3]
  refine ⟨rfl, ?_, rfl⟩
  show some ((resolvedFocus (coachInit req)).getD ("fitness")) = resolvedFocus (coachInit req)
  obtain ⟨v, hv⟩ := resolvedFocus_coachInit_isSome req
  rw [hv]
  rfl

/-- C9 witness: a distress message with no goal supplied keeps the workflow's
missing_field "goal" while flagging safety. -/
theorem coach_safety_branch_frame_witness :
    ((coach { user_name := "u", message := "I feel chest pain" }).missing_field =
       (coach_executor_invoke (coachInit { user_name := "u", message := "I feel chest pain" })).missing_field ∧
     some (coach { user_name := "u", message := "I feel chest pain" }).focus_area =
       (coach_executor_invoke (coachInit { user_name := "u", message := "I feel chest pain" })).focus_area ∧
     (coach { user_name := "u", message := "I feel chest pain" }).safety_flag =
       (coach_executor_invoke (coachInit { user_name := "u", message := "I feel chest pain" })).safety_flag) ∧
    (coach { user_name := "u", message := "I feel chest pain" }).missing_field = some ("goal") ∧
    (coach { user_name := "u", message := "I feel chest pain" }).safety_flag ≠ none :=
  ⟨coach_safety_branch_frame { user_name := "u", message := "I feel chest pain" } (by decide),
   by decide, by decide⟩

/-- C10: a caller-supplied empty-string focus_area is treated as unset: the
classifier node overrides it with the keyword-classified tag, and the router
sends an empty focus_area to the fitness node. -/
theorem empty_focus_area_treated_unset (s : CoachState) (h : s.focus_area = some ("")) :
    intent_classifier_node s =
      { s with focus_area := some (classify_intent (s.message.getD "")) } ∧
    router s = "fitness_node" := by
  have hf : falsy s.focus_area = true := by rw [h]; rfl
  refine ⟨?_, ?_⟩
  · unfold intent_classifier_node
    rw [if_pos hf]
  · simp [router, hf]

/-- C10 witness at a state carrying focus_area "" and a nutrition message. -/
theorem empty_focus_area_treated_unset_witness :
    (intent_classifier_node { message := some ("meal plan please"), focus_area := some ("") }).focus_area =
      some (classify_intent ("meal plan please")) ∧
    router { message := some ("meal plan please"), focus_area := some ("") } = "fitness_node" :=
  ⟨by
     rw [(empty_focus_area_treated_unset
       { message := some ("meal plan please"), focus_area := some ("") } rfl).1]
     rfl,
   (empty_focus_area_treated_unset
      { message := some ("meal plan please"), focus_area := some ("") } rfl).2⟩

end WellnessNavigator
